import Mathlib

/-
Verification of the tpclash runtime supervisor (src/main.go, rootCmd.Run).

The supervisor is embedded shallowly as a trace-producing function: every
observable action of the Run function (logging, file writes, process spawn,
proxy enable/disable, the reload HTTP request, process kill) becomes an
`Event`, and `run` maps an environment describing the outcomes of the
fallible steps (first-config validity, write results, spawn result, proxy
results, the per-update reload outcomes) to the list of events the Go code
performs, in program order.  A `logrus.Fatal` call terminates the Go
process, so in the embedding a fatal branch ends the trace.

Functions of the repository that are not part of src/main.go
(CheckConfig, AutoFix, the internal file-name constants) are modelled
abstractly, from the spec, as parameters of the embedding.
-/

set_option maxRecDepth 10000

namespace TPClash

/-- The three OS signals that trigger the shared cancellation context
(syscall.SIGINT, syscall.SIGTERM, syscall.SIGHUP in main.go line 44). -/
inductive Signal where
  | sigint
  | sigterm
  | sighup
deriving DecidableEq, Repr

/-- Modelled from the spec: the subset of a parsed clash configuration the
supervisor reads — the control-plane address (`ExternalController`) and the
authentication secret (`Secret`).  The full parser (CheckConfig) lives
outside src/main.go. -/
structure ClashConfig where
  externalController : String
  secret : String
deriving DecidableEq, Repr

/-- The command-line configuration (struct TPClashConf), restricted to the
fields rootCmd.Run reads. -/
structure TPClashConf where
  printVersion : Bool
  debug : Bool
  clashHome : String
  clashUI : String
deriving DecidableEq, Repr

/-- Observable actions of rootCmd.Run, in the order the Go code performs
them.  `writeFile` records a successful os.WriteFile; `httpPut` records the
reload request with its URL, Authorization header value and body. -/
inductive Event where
  | printBanner
  | setDebugLevel
  | logInfo (msg : String)
  | logError (msg : String)
  | logFatal (msg : String)
  | sysctl
  | extractFiles
  | watchConfig
  | recvConfig (text : String)
  | writeFile (path content : String)
  | spawn (args : List String)
  | cancel
  | newProxyMode
  | enableProxy
  | disableProxy
  | installConsumer
  | ctxDone (s : Signal)
  | httpPut (url auth body : String)
  | killProcess
deriving DecidableEq, Repr

/-- Modelled from the spec: the functions of this repository that
rootCmd.Run calls but that are defined outside src/main.go.
`checkConfig` is CheckConfig: structural validation returning the parsed
fields or an error (never partial success).  `autoFix` is AutoFix: a
normalization pass applied to the raw text of each subsequent update
before validation is retried; it may rewrite the source text. -/
structure Deps where
  checkConfig : String → Except String ClashConfig
  autoFix : String → String

/-- Modelled from the spec: the fixed internal configuration filename under
the home directory (constant InternalConfigName, declared outside
src/main.go).  The claims do not depend on its concrete value. -/
def InternalConfigName : String := "xclash.yaml"

/-- Modelled from the spec: the fixed internal clash binary filename under
the home directory (constant InternalClashBinName, declared outside
src/main.go). -/
def InternalClashBinName : String := "xclash"

/-- filepath.Join for the two-component joins used in rootCmd.Run. -/
def filepathJoin (a b : String) : String := a ++ "/" ++ b

/-- The internal configuration path clashConfPath (main.go line 65). -/
def confPath (conf : TPClashConf) : String :=
  filepathJoin conf.clashHome InternalConfigName

/-- Outcome environment of one iteration of the steady-state reload loop:
the raw text received from the channel, whether os.WriteFile succeeded,
whether http.NewRequest succeeded, the HTTP response (`none` for a network
error, `some status` for a response) and the response body. -/
structure UpdateEnv where
  text : String
  writeOk : Bool
  reqOk : Bool
  netStatus : Option Nat
  respBody : String
deriving DecidableEq, Repr

/-- Outcome environment of one execution of rootCmd.Run: the first config
text, the outcomes of the fallible startup steps, the signal that
eventually fires, the shutdown-step outcomes, and the sequence of
subsequent updates delivered on the channel. -/
structure StartEnv where
  firstConf : String
  writeOk : Bool
  startOk : Bool
  procExists : Bool
  newProxyModeOk : Bool
  enableOk : Bool
  sig : Signal
  disableOk : Bool
  killOk : Bool
  updates : List UpdateEnv
deriving Repr

/-- One iteration of the steady-state reload loop (main.go lines 101-144):
log, auto-fix, validate (skip on error), persist (skip on error), build
the PUT request (skip on error), send it (skip on network error), log a
status error for a non-2xx response, and log success.  Note the source has
no `continue` after the non-2xx branch, so the success log also runs
there. -/
def processUpdate (fns : Deps) (path : String) (u : UpdateEnv) : List Event :=
  Event.logInfo "[main] clash config changed, reloading..." ::
  match fns.checkConfig (fns.autoFix u.text) with
  | .error e =>
      [Event.logError ("[main] an error was detected in the clash config, skipping automatic reload: " ++ e)]
  | .ok cc =>
      if u.writeOk then
        Event.writeFile path (fns.autoFix u.text) ::
        (let apiAddr := if cc.externalController = "" then "127.0.0.1:9090" else cc.externalController
         if u.reqOk then
           Event.httpPut ("http://" ++ apiAddr ++ "/configs")
             ("Bearer " ++ cc.secret)
             ("\x7b\"path\": \"" ++ path ++ "\"\x7d") ::
           (match u.netStatus with
            | none => [Event.logError "[main] failed to reload config"]
            | some st =>
                (if 200 ≤ st ∧ st ≤ 299 then [] else
                  [Event.logError ("[main] failed to reload config: status " ++ toString st ++ ": " ++ u.respBody)]) ++
                [Event.logInfo "[main] clash config reload success..."])
         else [Event.logError "[main] failed to create reload req"])
      else [Event.logError "[main] failed to copy clash config"]

/-- The steady-state consumer goroutine (main.go lines 100-145): a single
reader that processes the channel values one at a time, in order, each to
completion before the next is read. -/
def reloadLoop (fns : Deps) (path : String) : List UpdateEnv → List Event
  | [] => []
  | u :: us => processUpdate fns path u ++ reloadLoop fns path us

/-- Events of the cmd.Start / cmd.Process nil checks (main.go lines
81-88): each failure logs and requests cancellation but does not stop
execution. -/
def spawnChecks (env : StartEnv) : List Event :=
  (if env.startOk then [] else [Event.logError "start error", Event.cancel]) ++
  (if env.procExists then [] else [Event.logError "failed to start clash process", Event.cancel])

/-- The shutdown sequence after ctx.Done (main.go lines 150-162):
DisableProxy (failure logged), then Kill only when cmd.Process is non-nil
(failure logged), then the final log. -/
def shutdownSeq (env : StartEnv) : List Event :=
  Event.logInfo "[main] TPClash stopping..." ::
  Event.disableProxy ::
  ((if env.disableOk then [] else [Event.logError "disable proxy error"]) ++
   (if env.procExists then
      Event.killProcess :: (if env.killOk then [] else [Event.logError "kill error"])
    else []) ++
   [Event.logInfo "[main] TPClash closed"])

/-- Events before the first channel receive (main.go lines 37-54). -/
def preamble (conf : TPClashConf) : List Event :=
  (if conf.debug then [Event.setDebugLevel] else []) ++
  [Event.logInfo "[main] starting tpclash...", Event.sysctl, Event.extractFiles, Event.watchConfig]

/-- The full trace of one execution of rootCmd.Run (main.go lines 31-163).
A logrus.Fatal branch ends the trace, matching os.Exit. -/
def run (fns : Deps) (conf : TPClashConf) (env : StartEnv) : List Event :=
  if conf.printVersion then [Event.printBanner] else
  preamble conf ++
  Event.recvConfig env.firstConf ::
  match fns.checkConfig env.firstConf with
  | .error e => [Event.logFatal e]
  | .ok _ =>
      if env.writeOk then
        Event.writeFile (confPath conf) env.firstConf ::
        Event.logInfo "[main] running cmds" ::
        Event.spawn [filepathJoin conf.clashHome InternalClashBinName, "-f",
                     confPath conf, "-d", conf.clashHome, "-ext-ui",
                     filepathJoin conf.clashHome conf.clashUI] ::
        (spawnChecks env ++
         Event.newProxyMode ::
         (if env.newProxyModeOk then
            Event.enableProxy ::
            (if env.enableOk then
               Event.installConsumer ::
               (reloadLoop fns (confPath conf) env.updates ++
                Event.logInfo "[main] waiting" ::
                Event.ctxDone env.sig ::
                shutdownSeq env)
             else [Event.logFatal "[main] failed to enable proxy"])
          else [Event.logFatal "[main] failed to create proxy mode"]))
      else [Event.logFatal "[main] failed to copy clash config"]

/-- Content of the file at `path` after performing the successful writes of
a trace, starting from `init`. -/
def diskAfter (path init : String) : List Event → String
  | [] => init
  | Event.writeFile p c :: es => diskAfter path (if p = path then c else init) es
  | _ :: es => diskAfter path init es

/-- Bool-valued success test for the modelled CheckConfig. -/
def checkOk (fns : Deps) (s : String) : Bool :=
  match fns.checkConfig s with
  | .ok _ => true
  | .error _ => false

/-- The last update of the sequence whose auto-fixed text passes
validation, if any — the update the claims call the last valid one. -/
def lastValidUpdate (fns : Deps) : List UpdateEnv → Option UpdateEnv
  | [] => none
  | u :: us =>
      match lastValidUpdate fns us with
      | some v => some v
      | none => if checkOk fns (fns.autoFix u.text) then some u else none

/-- The (url, Authorization header, body) triple of an httpPut event. -/
def callOf : Event → Option (String × String × String)
  | Event.httpPut url auth body => some (url, auth, body)
  | _ => none

/-- The reload calls of a trace, in order: (url, Authorization header,
body) of each httpPut event. -/
def reloadCalls (t : List Event) : List (String × String × String) :=
  t.filterMap callOf

/-- The reload call one update is expected to produce: none when
validation, persisting or request construction fails. -/
def expectedCall (fns : Deps) (path : String) (u : UpdateEnv) :
    Option (String × String × String) :=
  match fns.checkConfig (fns.autoFix u.text) with
  | .error _ => none
  | .ok cc =>
      if u.writeOk ∧ u.reqOk then
        some ("http://" ++ (if cc.externalController = "" then "127.0.0.1:9090" else cc.externalController) ++ "/configs",
              "Bearer " ++ cc.secret,
              "\x7b\"path\": \"" ++ path ++ "\"\x7d")
      else none

/-! ## Concrete instances used by witnesses and counterexamples -/

/-- A modelled CheckConfig/AutoFix pair where every text validates to the
empty parsed configuration and AutoFix is the identity. -/
def depsOk : Deps where
  checkConfig := fun _ => .ok ⟨"", ""⟩
  autoFix := id

/-- A modelled CheckConfig/AutoFix pair where every text validates and
AutoFix rewrites the text (appends a marker), as the spec allows it to
correct mistakes in the source text. -/
def depsFix : Deps where
  checkConfig := fun _ => .ok ⟨"", ""⟩
  autoFix := fun s => s ++ "#"

/-- A modelled CheckConfig that rejects every text. -/
def depsBad : Deps where
  checkConfig := fun _ => .error "parse error"
  autoFix := id

/-- A command-line configuration with the default flag values. -/
def conf0 : TPClashConf where
  printVersion := false
  debug := false
  clashHome := "/data/clash"
  clashUI := "yacd"

/-- conf0 with the version flag set. -/
def confV : TPClashConf where
  printVersion := true
  debug := false
  clashHome := "/data/clash"
  clashUI := "yacd"

/-- An update whose reload round-trip fully succeeds (status 204). -/
def updOk : UpdateEnv where
  text := "upd"
  writeOk := true
  reqOk := true
  netStatus := some 204
  respBody := ""

/-- An update whose reload request receives an HTTP 500 response. -/
def upd500 : UpdateEnv where
  text := "upd"
  writeOk := true
  reqOk := true
  netStatus := some 500
  respBody := "oops"

/-- A fully successful run environment with one successful update. -/
def env0 : StartEnv where
  firstConf := "first"
  writeOk := true
  startOk := true
  procExists := true
  newProxyModeOk := true
  enableOk := true
  sig := Signal.sigint
  disableOk := true
  killOk := true
  updates := [updOk]

/-- env0 with a failing spawn (cmd.Start error, nil process handle) and a
failing DisableProxy, and no updates. -/
def envSpawnFail : StartEnv where
  firstConf := "first"
  writeOk := true
  startOk := false
  procExists := false
  newProxyModeOk := true
  enableOk := true
  sig := Signal.sigterm
  disableOk := false
  killOk := true
  updates := []

/-- env0 with EnableProxy failing. -/
def envEnableFail : StartEnv where
  firstConf := "first"
  writeOk := true
  startOk := true
  procExists := true
  newProxyModeOk := true
  enableOk := false
  sig := Signal.sighup
  disableOk := true
  killOk := true
  updates := []

/-- env0 with DisableProxy and Kill failing at shutdown. -/
def envDisableFail : StartEnv where
  firstConf := "first"
  writeOk := true
  startOk := true
  procExists := true
  newProxyModeOk := true
  enableOk := true
  sig := Signal.sigint
  disableOk := false
  killOk := false
  updates := []

/-! ## Helper lemmas about the reload loop -/

/-- Event kinds the reload loop can emit. -/
def loopEvent : Event → Bool
  | Event.logInfo _ => true
  | Event.logError _ => true
  | Event.writeFile _ _ => true
  | Event.httpPut _ _ _ => true
  | _ => false

theorem processUpdate_shape (fns : Deps) (path : String) (u : UpdateEnv) :
    ∀ e ∈ processUpdate fns path u, loopEvent e = true := by
  cases hc : fns.checkConfig (fns.autoFix u.text) with
  | error msg => simp [processUpdate, hc, loopEvent, List.forall_mem_cons]
  | ok cc =>
      cases hw : u.writeOk with
      | false => simp [processUpdate, hc, hw, loopEvent, List.forall_mem_cons]
      | true =>
          cases hr : u.reqOk with
          | false => simp [processUpdate, hc, hw, hr, loopEvent, List.forall_mem_cons]
          | true =>
              cases hn : u.netStatus with
              | none => simp [processUpdate, hc, hw, hr, hn, loopEvent, List.forall_mem_cons]
              | some st =>
                  by_cases h2 : 200 ≤ st ∧ st ≤ 299 <;>
                    simp [processUpdate, hc, hw, hr, hn, h2, loopEvent, List.forall_mem_cons]

theorem reloadLoop_shape (fns : Deps) (path : String) (us : List UpdateEnv) :
    ∀ e ∈ reloadLoop fns path us, loopEvent e = true := by
  induction us with
  | nil => intro e he; cases he
  | cons u us ih =>
      intro e he
      rcases List.mem_append.1 he with h | h
      · exact processUpdate_shape fns path u e h
      · exact ih e h

theorem killProcess_not_mem_reloadLoop (fns : Deps) (path : String) (us : List UpdateEnv) :
    Event.killProcess ∉ reloadLoop fns path us := by
  intro h
  have := reloadLoop_shape fns path us _ h
  simp [loopEvent] at this

theorem mem_reloadCalls_of_mem (t : List Event) (url auth body : String)
    (h : Event.httpPut url auth body ∈ t) : (url, auth, body) ∈ reloadCalls t :=
  List.mem_filterMap.2 ⟨Event.httpPut url auth body, h, rfl⟩

theorem mem_of_mem_reloadCalls (t : List Event) (url auth body : String)
    (h : (url, auth, body) ∈ reloadCalls t) : Event.httpPut url auth body ∈ t := by
  rcases List.mem_filterMap.1 h with ⟨e, he, hce⟩
  cases e <;> simp [callOf] at hce
  rcases hce with ⟨rfl, rfl, rfl⟩
  exact he

theorem reloadCalls_append (t₁ t₂ : List Event) :
    reloadCalls (t₁ ++ t₂) = reloadCalls t₁ ++ reloadCalls t₂ :=
  List.filterMap_append t₁ t₂ callOf

theorem reloadCalls_processUpdate (fns : Deps) (path : String) (u : UpdateEnv) :
    reloadCalls (processUpdate fns path u) = (expectedCall fns path u).toList := by
  cases hc : fns.checkConfig (fns.autoFix u.text) with
  | error msg => simp [processUpdate, expectedCall, hc, reloadCalls, callOf]
  | ok cc =>
      cases hw : u.writeOk with
      | false => simp [processUpdate, expectedCall, hc, hw, reloadCalls, callOf]
      | true =>
          cases hr : u.reqOk with
          | false => simp [processUpdate, expectedCall, hc, hw, hr, reloadCalls, callOf]
          | true =>
              cases hn : u.netStatus with
              | none => simp [processUpdate, expectedCall, hc, hw, hr, hn, reloadCalls, callOf]
              | some st =>
                  by_cases h2 : 200 ≤ st ∧ st ≤ 299 <;>
                    simp [processUpdate, expectedCall, hc, hw, hr, hn, h2,
                      reloadCalls, callOf]

/-! ## Claim theorems -/

/-- Claim C9: when the print-version flag is set, the run prints the
version banner and returns immediately: the trace is exactly the banner,
so no sysctl, extraction, watching, write, spawn or proxy-state event
occurs. -/
theorem C9_print_version_only (fns : Deps) (conf : TPClashConf) (env : StartEnv)
    (hpv : conf.printVersion = true) :
    run fns conf env = [Event.printBanner] := by
  simp [run, hpv]

theorem C9_print_version_only_witness :
    run depsOk confV env0 = [Event.printBanner] :=
  C9_print_version_only depsOk confV env0 rfl

/-- Claim C8: the steady-state consumer processes the updates one at a
time and in channel order: its trace is the concatenation of the
per-update segments in order, and the reload calls it performs are
exactly the expected call of each update, in update order — at most one
call per update, each complete before the next update's segment starts. -/
theorem C8_sequential_consumer (fns : Deps) (path : String) (us : List UpdateEnv) :
    reloadLoop fns path us = (us.map (processUpdate fns path)).flatten ∧
    reloadCalls (reloadLoop fns path us) = us.filterMap (expectedCall fns path) := by
  induction us with
  | nil => exact ⟨rfl, rfl⟩
  | cons u us ih =>
      constructor
      · simp [reloadLoop, ih.1]
      · simp only [reloadLoop, reloadCalls_append, reloadCalls_processUpdate, ih.2,
          List.filterMap_cons]
        cases expectedCall fns path u <;> simp

/-- Claim C10: every reload request of an update carries the
Authorization header "Bearer " followed by the configuration secret —
also when the secret is empty, in which case the header value is exactly
the string Bearer followed by a space. -/
theorem C10_bearer_header (fns : Deps) (path : String) (u : UpdateEnv) (cc : ClashConfig)
    (hc : fns.checkConfig (fns.autoFix u.text) = Except.ok cc) :
    ∀ url auth body, Event.httpPut url auth body ∈ processUpdate fns path u →
      auth = "Bearer " ++ cc.secret := by
  intro url auth body hmem
  have h := mem_reloadCalls_of_mem _ _ _ _ hmem
  rw [reloadCalls_processUpdate] at h
  simp only [expectedCall, hc] at h
  by_cases hwr : u.writeOk = true ∧ u.reqOk = true
  · simp [hwr.1, hwr.2] at h
    exact h.2.1
  · simp [if_neg hwr] at h


theorem C10_bearer_header_witness :
    (Event.httpPut "http://127.0.0.1:9090/configs" "Bearer "
        "\x7b\"path\": \"/data/clash/xclash.yaml\"\x7d" ∈
      processUpdate depsOk "/data/clash/xclash.yaml" updOk) ∧
    "Bearer " = "Bearer " ++ (ClashConfig.mk "" "").secret :=
  ⟨by decide,
   C10_bearer_header depsOk "/data/clash/xclash.yaml" updOk ⟨"", ""⟩ rfl
     "http://127.0.0.1:9090/configs" "Bearer "
     "\x7b\"path\": \"/data/clash/xclash.yaml\"\x7d" (by decide)⟩

/-- Claim C5: for a validated subsequent configuration that is persisted
and whose request is constructed, the reload request is a PUT to
http://{controller}/configs where the controller defaults to
127.0.0.1:9090 when the ExternalController field is empty, with
Authorization header Bearer {secret} and JSON body naming the internal
config path; and the response is treated as a failure (status error
logged) exactly when the status is outside 200-299. -/
theorem C5_reload_request (fns : Deps) (path : String) (u : UpdateEnv) (cc : ClashConfig)
    (hc : fns.checkConfig (fns.autoFix u.text) = Except.ok cc)
    (hw : u.writeOk = true) (hr : u.reqOk = true) :
    Event.httpPut
        ("http://" ++ (if cc.externalController = "" then "127.0.0.1:9090"
                       else cc.externalController) ++ "/configs")
        ("Bearer " ++ cc.secret)
        ("\x7b\"path\": \"" ++ path ++ "\"\x7d") ∈ processUpdate fns path u ∧
    (∀ st, u.netStatus = some st →
      (Event.logError ("[main] failed to reload config: status " ++ toString st ++ ": " ++ u.respBody)
          ∈ processUpdate fns path u ↔ ¬(200 ≤ st ∧ st ≤ 299))) := by
  constructor
  · apply mem_of_mem_reloadCalls
    rw [reloadCalls_processUpdate]
    simp [expectedCall, hc, hw, hr]
  · intro st hst
    by_cases h2 : 200 ≤ st ∧ st ≤ 299 <;>
      simp [processUpdate, hc, hw, hr, hst, h2]

theorem C5_reload_request_witness :
    (Event.httpPut "http://127.0.0.1:9090/configs" "Bearer "
        "\x7b\"path\": \"/data/clash/xclash.yaml\"\x7d" ∈
      processUpdate depsOk "/data/clash/xclash.yaml" updOk) ∧
    (Event.logError "[main] failed to reload config: status 204: " ∈
        processUpdate depsOk "/data/clash/xclash.yaml" updOk ↔ ¬(200 ≤ 204 ∧ 204 ≤ 299)) := by
  have h := C5_reload_request depsOk "/data/clash/xclash.yaml" updOk ⟨"", ""⟩ rfl rfl rfl
  exact ⟨h.1, h.2 204 rfl⟩

/-- Claim C6 (code bug): the claim says the success log message is
emitted only when the reload response has a 2xx status, but the source
(main.go lines 137-143) has no continue statement after the non-2xx
branch, so at a 500 response the loop logs the status error and then
still logs the success message.  This evaluates the embedded loop body at
that failing input. -/
theorem C6_success_log_despite_non2xx :
    Event.logError "[main] failed to reload config: status 500: oops" ∈
      processUpdate depsOk "/data/clash/xclash.yaml" upd500 ∧
    Event.logInfo "[main] clash config reload success..." ∈
      processUpdate depsOk "/data/clash/xclash.yaml" upd500 := by
  decide


/-! ## Decomposition of the happy-path run and disk-state lemmas -/

theorem run_ok (fns : Deps) (conf : TPClashConf) (env : StartEnv) (cc : ClashConfig)
    (hpv : conf.printVersion = false)
    (hc : fns.checkConfig env.firstConf = Except.ok cc)
    (hw : env.writeOk = true) (hnpm : env.newProxyModeOk = true)
    (hen : env.enableOk = true) :
    run fns conf env =
      preamble conf ++ [Event.recvConfig env.firstConf] ++
      [Event.writeFile (confPath conf) env.firstConf] ++
      [Event.logInfo "[main] running cmds"] ++
      [Event.spawn [filepathJoin conf.clashHome InternalClashBinName, "-f", confPath conf,
                    "-d", conf.clashHome, "-ext-ui", filepathJoin conf.clashHome conf.clashUI]] ++
      spawnChecks env ++
      [Event.newProxyMode, Event.enableProxy, Event.installConsumer] ++
      reloadLoop fns (confPath conf) env.updates ++
      [Event.logInfo "[main] waiting", Event.ctxDone env.sig] ++
      shutdownSeq env := by
  simp [run, hpv, hc, hw, hnpm, hen]

theorem diskAfter_append (p i : String) (t₁ t₂ : List Event) :
    diskAfter p i (t₁ ++ t₂) = diskAfter p (diskAfter p i t₁) t₂ := by
  induction t₁ generalizing i with
  | nil => rfl
  | cons e es ih => cases e <;> simp [diskAfter, ih]

theorem diskAfter_preamble (conf : TPClashConf) (p i : String) :
    diskAfter p i (preamble conf) = i := by
  cases hd : conf.debug <;> simp [preamble, hd, diskAfter]

theorem diskAfter_spawnChecks (env : StartEnv) (p i : String) :
    diskAfter p i (spawnChecks env) = i := by
  cases hs : env.startOk <;> cases hp : env.procExists <;>
    simp [spawnChecks, hs, hp, diskAfter]

theorem diskAfter_shutdownSeq (env : StartEnv) (p i : String) :
    diskAfter p i (shutdownSeq env) = i := by
  cases hd : env.disableOk <;> cases hp : env.procExists <;> cases hk : env.killOk <;>
    simp [shutdownSeq, hd, hp, hk, diskAfter]

theorem diskAfter_processUpdate (fns : Deps) (path : String) (u : UpdateEnv) (i : String) :
    diskAfter path i (processUpdate fns path u) =
      if checkOk fns (fns.autoFix u.text) ∧ u.writeOk = true then fns.autoFix u.text
      else i := by
  cases hc : fns.checkConfig (fns.autoFix u.text) with
  | error msg => simp [processUpdate, hc, diskAfter, checkOk]
  | ok cc =>
      cases hw : u.writeOk with
      | false => simp [processUpdate, hc, hw, diskAfter, checkOk]
      | true =>
          cases hr : u.reqOk with
          | false => simp [processUpdate, hc, hw, hr, diskAfter, checkOk]
          | true =>
              cases hn : u.netStatus with
              | none => simp [processUpdate, hc, hw, hr, hn, diskAfter, checkOk]
              | some st =>
                  by_cases h2 : 200 ≤ st ∧ st ≤ 299 <;>
                    simp [processUpdate, hc, hw, hr, hn, h2, diskAfter, checkOk,
                      diskAfter_append]

theorem diskAfter_reloadLoop (fns : Deps) (path : String) (us : List UpdateEnv) (i : String)
    (hws : ∀ u ∈ us, u.writeOk = true) :
    diskAfter path i (reloadLoop fns path us) =
      (match lastValidUpdate fns us with
       | some u => fns.autoFix u.text
       | none => i) := by
  induction us generalizing i with
  | nil => rfl
  | cons u us ih =>
      have hu : u.writeOk = true := hws u (List.mem_cons_self u us)
      have hus : ∀ v ∈ us, v.writeOk = true := fun v hv => hws v (List.mem_cons_of_mem u hv)
      rw [reloadLoop, diskAfter_append, diskAfter_processUpdate, ih _ hus]
      cases h : lastValidUpdate fns us with
      | some v => simp [lastValidUpdate, h]
      | none =>
          by_cases hcv : checkOk fns (fns.autoFix u.text) = true <;>
            simp [lastValidUpdate, h, hcv, hu]

/-- Claim C2: the startup path blocks until the first ConfigText arrives
(the receive event precedes everything that follows), and when
validation of that first configuration fails the run ends at the fatal
log: no engine spawn and no EnableProxy ever occur. -/
theorem C2_first_invalid_fatal (fns : Deps) (conf : TPClashConf) (env : StartEnv)
    (hpv : conf.printVersion = false) (e : String)
    (hc : fns.checkConfig env.firstConf = Except.error e) :
    run fns conf env = preamble conf ++ [Event.recvConfig env.firstConf, Event.logFatal e] ∧
    (∀ args, Event.spawn args ∉ run fns conf env) ∧
    Event.enableProxy ∉ run fns conf env := by
  have hrun : run fns conf env =
      preamble conf ++ [Event.recvConfig env.firstConf, Event.logFatal e] := by
    simp [run, hpv, hc]
  refine ⟨hrun, ?_, ?_⟩
  · intro args hmem
    rw [hrun] at hmem
    cases hd : conf.debug <;> simp [preamble, hd] at hmem
  · intro hmem
    rw [hrun] at hmem
    cases hd : conf.debug <;> simp [preamble, hd] at hmem

theorem C2_first_invalid_fatal_witness :
    (run depsBad conf0 env0 =
      preamble conf0 ++ [Event.recvConfig env0.firstConf, Event.logFatal "parse error"]) ∧
    (∀ args, Event.spawn args ∉ run depsBad conf0 env0) ∧
    Event.enableProxy ∉ run depsBad conf0 env0 :=
  C2_first_invalid_fatal depsBad conf0 env0 rfl "parse error" rfl

/-- Claim C7: when cmd.Start fails, the supervisor logs the error and
requests cancellation, but execution falls through: EnableProxy is still
attempted and, when it succeeds, the steady-state reload consumer is
still installed. -/
theorem C7_spawn_failure_continues (fns : Deps) (conf : TPClashConf) (env : StartEnv)
    (cc : ClashConfig) (hpv : conf.printVersion = false)
    (hc : fns.checkConfig env.firstConf = Except.ok cc)
    (hw : env.writeOk = true) (hstart : env.startOk = false)
    (hnpm : env.newProxyModeOk = true) :
    Event.logError "start error" ∈ run fns conf env ∧
    Event.cancel ∈ run fns conf env ∧
    Event.enableProxy ∈ run fns conf env ∧
    (env.enableOk = true → Event.installConsumer ∈ run fns conf env) := by
  by_cases hen : env.enableOk = true
  · rw [run_ok fns conf env cc hpv hc hw hnpm hen]
    refine ⟨?_, ?_, ?_, fun _ => ?_⟩ <;> simp [spawnChecks, hstart]
  · have hen' : env.enableOk = false := by simpa using hen
    have hrun : run fns conf env =
          preamble conf ++
          Event.recvConfig env.firstConf ::
          Event.writeFile (confPath conf) env.firstConf ::
          Event.logInfo "[main] running cmds" ::
          Event.spawn [filepathJoin conf.clashHome InternalClashBinName, "-f", confPath conf,
                       "-d", conf.clashHome, "-ext-ui",
                       filepathJoin conf.clashHome conf.clashUI] ::
          (spawnChecks env ++ [Event.newProxyMode, Event.enableProxy,
            Event.logFatal "[main] failed to enable proxy"]) := by
      simp [run, hpv, hc, hw, hnpm, hen']
    rw [hrun]
    refine ⟨?_, ?_, ?_, fun h => absurd h hen⟩ <;>
      simp [spawnChecks, hstart]

theorem C7_spawn_failure_continues_witness :
    Event.logError "start error" ∈ run depsOk conf0 envSpawnFail ∧
    Event.cancel ∈ run depsOk conf0 envSpawnFail ∧
    Event.enableProxy ∈ run depsOk conf0 envSpawnFail ∧
    (envSpawnFail.enableOk = true → Event.installConsumer ∈ run depsOk conf0 envSpawnFail) :=
  C7_spawn_failure_continues depsOk conf0 envSpawnFail ⟨"", ""⟩ rfl rfl rfl rfl rfl

/-- Claim C1: on a shutdown triggered by cancellation (any of the three
signals, quantified through the environment), the trace splits at the
DisableProxy invocation with no kill attempt before it; the kill attempt
occurs exactly when a process handle exists; both failures are logged;
and the shutdown runs to the final completion log regardless. -/
theorem C1_disable_before_kill (fns : Deps) (conf : TPClashConf) (env : StartEnv)
    (cc : ClashConfig) (hpv : conf.printVersion = false)
    (hc : fns.checkConfig env.firstConf = Except.ok cc)
    (hw : env.writeOk = true) (hnpm : env.newProxyModeOk = true)
    (hen : env.enableOk = true) :
    ∃ pre post,
      run fns conf env = pre ++ Event.disableProxy :: post ∧
      Event.killProcess ∉ pre ∧
      (Event.killProcess ∈ post ↔ env.procExists = true) ∧
      (env.disableOk = false → Event.logError "disable proxy error" ∈ post) ∧
      (env.procExists = true → env.killOk = false → Event.logError "kill error" ∈ post) ∧
      post.getLast? = some (Event.logInfo "[main] TPClash closed") := by
  refine ⟨preamble conf ++ [Event.recvConfig env.firstConf] ++
      [Event.writeFile (confPath conf) env.firstConf] ++
      [Event.logInfo "[main] running cmds"] ++
      [Event.spawn [filepathJoin conf.clashHome InternalClashBinName, "-f", confPath conf,
                    "-d", conf.clashHome, "-ext-ui",
                    filepathJoin conf.clashHome conf.clashUI]] ++
      spawnChecks env ++
      [Event.newProxyMode, Event.enableProxy, Event.installConsumer] ++
      reloadLoop fns (confPath conf) env.updates ++
      [Event.logInfo "[main] waiting", Event.ctxDone env.sig,
       Event.logInfo "[main] TPClash stopping..."],
    (if env.disableOk then [] else [Event.logError "disable proxy error"]) ++
      (if env.procExists then
         Event.killProcess :: (if env.killOk then [] else [Event.logError "kill error"])
       else []) ++
      [Event.logInfo "[main] TPClash closed"],
    ?_, ?_, ?_, ?_, ?_, ?_⟩
  · rw [run_ok fns conf env cc hpv hc hw hnpm hen]
    simp [shutdownSeq]
  · cases hd : conf.debug <;> cases hs : env.startOk <;> cases hp : env.procExists <;>
      simp [preamble, spawnChecks, hd, hs, hp, killProcess_not_mem_reloadLoop]
  · cases hp : env.procExists <;> cases hdk : env.disableOk <;> cases hk : env.killOk <;>
      simp [hp, hdk, hk]
  · intro hdx
    cases hp : env.procExists <;> cases hk : env.killOk <;> simp [hdx, hp, hk]
  · intro hp hk
    cases hdk : env.disableOk <;> simp [hp, hk, hdk]
  · cases hdk : env.disableOk <;> cases hp : env.procExists <;> cases hk : env.killOk <;>
      simp [hdk, hp, hk]

theorem C1_disable_before_kill_witness :
    ∃ pre post,
      run depsOk conf0 env0 = pre ++ Event.disableProxy :: post ∧
      Event.killProcess ∉ pre ∧
      (Event.killProcess ∈ post ↔ env0.procExists = true) ∧
      (env0.disableOk = false → Event.logError "disable proxy error" ∈ post) ∧
      (env0.procExists = true → env0.killOk = false → Event.logError "kill error" ∈ post) ∧
      post.getLast? = some (Event.logInfo "[main] TPClash closed") :=
  C1_disable_before_kill depsOk conf0 env0 ⟨"", ""⟩ rfl rfl rfl rfl rfl

/-- Claim C4: an EnableProxy failure at startup is fatal — the run ends
at the fatal log, with no DisableProxy, no kill and no reload consumer —
whereas a DisableProxy failure at shutdown is only logged and the kill
is still attempted when a process handle exists. -/
theorem C4_enable_fatal_disable_logged (fns : Deps) (conf : TPClashConf) (env : StartEnv)
    (cc : ClashConfig) (hpv : conf.printVersion = false)
    (hc : fns.checkConfig env.firstConf = Except.ok cc)
    (hw : env.writeOk = true) (hnpm : env.newProxyModeOk = true) :
    (env.enableOk = false →
      (∃ front, run fns conf env = front ++ [Event.logFatal "[main] failed to enable proxy"]) ∧
      Event.disableProxy ∉ run fns conf env ∧
      Event.killProcess ∉ run fns conf env ∧
      Event.installConsumer ∉ run fns conf env) ∧
    (env.enableOk = true → env.disableOk = false →
      Event.logError "disable proxy error" ∈ run fns conf env ∧
      (env.procExists = true → Event.killProcess ∈ run fns conf env)) := by
  constructor
  · intro hen
    have hrun : run fns conf env =
        preamble conf ++
        Event.recvConfig env.firstConf ::
        Event.writeFile (confPath conf) env.firstConf ::
        Event.logInfo "[main] running cmds" ::
        Event.spawn [filepathJoin conf.clashHome InternalClashBinName, "-f", confPath conf,
                     "-d", conf.clashHome, "-ext-ui",
                     filepathJoin conf.clashHome conf.clashUI] ::
        (spawnChecks env ++ [Event.newProxyMode, Event.enableProxy,
          Event.logFatal "[main] failed to enable proxy"]) := by
      simp [run, hpv, hc, hw, hnpm, hen]
    refine ⟨⟨preamble conf ++
        Event.recvConfig env.firstConf ::
        Event.writeFile (confPath conf) env.firstConf ::
        Event.logInfo "[main] running cmds" ::
        Event.spawn [filepathJoin conf.clashHome InternalClashBinName, "-f", confPath conf,
                     "-d", conf.clashHome, "-ext-ui",
                     filepathJoin conf.clashHome conf.clashUI] ::
        (spawnChecks env ++ [Event.newProxyMode, Event.enableProxy]), ?_⟩, ?_, ?_, ?_⟩
    · rw [hrun]; simp
    · rw [hrun]
      cases hd : conf.debug <;> cases hs : env.startOk <;> cases hp : env.procExists <;>
        simp [preamble, spawnChecks, hd, hs, hp]
    · rw [hrun]
      cases hd : conf.debug <;> cases hs : env.startOk <;> cases hp : env.procExists <;>
        simp [preamble, spawnChecks, hd, hs, hp]
    · rw [hrun]
      cases hd : conf.debug <;> cases hs : env.startOk <;> cases hp : env.procExists <;>
        simp [preamble, spawnChecks, hd, hs, hp]
  · intro hen hdx
    rw [run_ok fns conf env cc hpv hc hw hnpm hen]
    constructor
    · simp [shutdownSeq, hdx]
    · intro hp
      simp [shutdownSeq, hp]

theorem C4_enable_fatal_disable_logged_witness :
    ((∃ front, run depsOk conf0 envEnableFail =
        front ++ [Event.logFatal "[main] failed to enable proxy"]) ∧
     Event.disableProxy ∉ run depsOk conf0 envEnableFail ∧
     Event.killProcess ∉ run depsOk conf0 envEnableFail ∧
     Event.installConsumer ∉ run depsOk conf0 envEnableFail) ∧
    (Event.logError "disable proxy error" ∈ run depsOk conf0 envDisableFail ∧
     (envDisableFail.procExists = true → Event.killProcess ∈ run depsOk conf0 envDisableFail)) :=
  ⟨(C4_enable_fatal_disable_logged depsOk conf0 envEnableFail ⟨"", ""⟩ rfl rfl rfl rfl).1 rfl,
   (C4_enable_fatal_disable_logged depsOk conf0 envDisableFail ⟨"", ""⟩ rfl rfl rfl rfl).2 rfl rfl⟩

/-- Claim C3 (amended): in the steady-state loop every update that fails
validation is logged and discarded — its iteration performs no disk write
and no reload request — so, when the startup write and all accepted
update writes succeed, the persisted internal configuration file after
processing all updates equals the auto-fixed text of the last valid
update (or the startup configuration, written verbatim, if no update was
valid); it is never an invalid one. -/
theorem C3_persisted_config (fns : Deps) (conf : TPClashConf) (env : StartEnv)
    (cc : ClashConfig) (hpv : conf.printVersion = false)
    (hc : fns.checkConfig env.firstConf = Except.ok cc)
    (hw : env.writeOk = true) (hnpm : env.newProxyModeOk = true)
    (hen : env.enableOk = true)
    (hws : ∀ u ∈ env.updates, u.writeOk = true) (i : String) :
    diskAfter (confPath conf) i (run fns conf env) =
      (match lastValidUpdate fns env.updates with
       | some u => fns.autoFix u.text
       | none => env.firstConf) ∧
    (∀ u ∈ env.updates, ∀ msg, fns.checkConfig (fns.autoFix u.text) = Except.error msg →
      (∀ p c, Event.writeFile p c ∉ processUpdate fns (confPath conf) u) ∧
      (∀ a b c, Event.httpPut a b c ∉ processUpdate fns (confPath conf) u) ∧
      Event.logError ("[main] an error was detected in the clash config, skipping automatic reload: " ++ msg)
        ∈ processUpdate fns (confPath conf) u) := by
  constructor
  · rw [run_ok fns conf env cc hpv hc hw hnpm hen]
    simp only [diskAfter_append, diskAfter_preamble, diskAfter_spawnChecks,
      diskAfter_shutdownSeq, diskAfter, if_pos]
    rw [diskAfter_reloadLoop fns (confPath conf) env.updates env.firstConf hws]
    cases hdk : env.disableOk <;> cases hp : env.procExists <;> cases hk : env.killOk <;>
      simp [hdk, hp, hk, diskAfter]
  · intro u _ msg hmsg
    refine ⟨?_, ?_, ?_⟩
    · intro p c
      simp [processUpdate, hmsg]
    · intro a b c
      simp [processUpdate, hmsg]
    · simp [processUpdate, hmsg]

theorem C3_persisted_config_witness :
    (diskAfter (confPath conf0) "" (run depsOk conf0 env0) =
      (match lastValidUpdate depsOk env0.updates with
       | some u => depsOk.autoFix u.text
       | none => env0.firstConf)) ∧
    (∀ u ∈ env0.updates, ∀ msg,
      depsOk.checkConfig (depsOk.autoFix u.text) = Except.error msg →
      (∀ p c, Event.writeFile p c ∉ processUpdate depsOk (confPath conf0) u) ∧
      (∀ a b c, Event.httpPut a b c ∉ processUpdate depsOk (confPath conf0) u) ∧
      Event.logError ("[main] an error was detected in the clash config, skipping automatic reload: " ++ msg)
        ∈ processUpdate depsOk (confPath conf0) u) :=
  C3_persisted_config depsOk conf0 env0 ⟨"", ""⟩ rfl rfl rfl rfl rfl
    (by decide) ""

/-- Claim C3 (counterexample to the literal statement): with the
spec-modelled AutoFix allowed to rewrite the update text, a run whose
single update is valid and whose writes all succeed leaves the persisted
file holding the auto-fixed text, which differs from the update itself —
so the file does not equal the last valid update verbatim. -/
theorem C3_counterexample :
    lastValidUpdate depsFix env0.updates = some updOk ∧
    env0.writeOk = true ∧
    (∀ u ∈ env0.updates, u.writeOk = true) ∧
    diskAfter (confPath conf0) "" (run depsFix conf0 env0) ≠ updOk.text := by
  decide

end TPClash
